import Mathlib

/-
Verification of the styled-map-package repository: a shallow embedding of
src/lib/validator.js together with models of the utility modules that are
exercised by the test suite (geo tile URLs, mapbox URL normalization,
file-not-found error classification), and proofs of the specification
claims about them.

External collaborators (the yauzl ZIP reader, the JSON parser from
node:stream/consumers, and the external MapLibre style validator
validateStyleMin) are passed to `validate` as parameters, mirroring how
the source treats them as black boxes.  Strings are modelled by their
character lists where the source does character-index arithmetic.
-/

namespace StyledMap

/-! ## JavaScript-style string helpers (character-list based) -/

/-- JS `s.startsWith(p)`. -/
def jsStartsWith (s p : String) : Bool := p.data.isPrefixOf s.data

/-- JS `s.endsWith(p)`. -/
def jsEndsWith (s p : String) : Bool := p.data.isSuffixOf s.data

/-- JS whitespace characters recognised by `String.prototype.trim` (ASCII part). -/
def isJsSpace (c : Char) : Bool :=
  c = ' ' || c = '\t' || c = '\n' || c = '\r' || c = '\x0b' || c = '\x0c'

/-- JS `s.trim()`. -/
def jsTrim (s : String) : String :=
  ⟨((s.data.dropWhile isJsSpace).reverse.dropWhile isJsSpace).reverse⟩

/-- JS `s.indexOf(pat)` on character lists: index of the first occurrence. -/
def indexOfSub : List Char → List Char → Option Nat
  | s, pat =>
    if pat.isPrefixOf s then some 0
    else
      match s with
      | [] => none
      | _ :: rest => (indexOfSub rest pat).map (· + 1)

/-- Value of a decimal digit string, as computed by `parseInt(s, 10)`
    on a string of digits. -/
def digitsToNat (cs : List Char) : Nat :=
  cs.foldl (fun n c => n * 10 + (c.toNat - 48)) 0

/-! ## JSON data model

`style.json` is parsed by the external `json` consumer; the parsed value is a
free-form JSON tree.  Numbers are modelled as integers (all numeric values the
validator inspects are only type-tested or compared for presence). -/

inductive Json where
  | null
  | bool (b : Bool)
  | num (n : Int)
  | str (s : String)
  | arr (elems : List Json)
  | obj (props : List (String × Json))

/-- JS truthiness of a JSON value. -/
def jsTruthy : Json → Bool
  | .null => false
  | .bool b => b
  | .num n => !(n == 0)
  | .str s => !s.isEmpty
  | .arr _ => true
  | .obj _ => true

/-- JS property access `v[key]`: `some` for an own property of an object,
    `none` (undefined) otherwise. -/
def getProp : Json → String → Option Json
  | .obj props, key => (props.find? (fun kv => kv.1 == key)).map (·.2)
  | _, _ => none

/-- `typeof v === "number"` (with `undefined` as `none`). -/
def isNumber : Option Json → Bool
  | some (.num _) => true
  | _ => false

/-- `typeof v === "object"` (true for null, arrays and objects). -/
def isJsObjectType : Option Json → Bool
  | some .null => true
  | some (.arr _) => true
  | some (.obj _) => true
  | _ => false

/-- JS `Object.entries(v)`: key/value pairs of an object, index/element pairs
    of an array, index/character pairs of a string, empty otherwise. -/
def jsEntries : Json → List (String × Json)
  | .obj props => props
  | .arr elems => elems.enum.map (fun p => (toString p.1, p.2))
  | .str s => s.data.enum.map (fun p => (toString p.1, Json.str (String.mk [p.2])))
  | _ => []

/-! ## Constants from src/lib/utils/templates.js -/

def URI_BASE : String := "smp://maps.v1/"
def STYLE_FILE : String := "style.json"
def VERSION_FILE : String := "VERSION"

/-! ## Validator embedding (src/lib/validator.js)

The result of opening the ZIP is either a failure (carrying the error `code`
property when present, and the error message), or the list of archive entries.
Reading an entry stream is itself fallible, so an entry content is an
`Except`. -/

structure RawEntry where
  filename : String
  content : Except String String

/-- The outcome of `open(filepath)` and of the un-guarded ZIP interactions
    inside the try/finally: on success, `entries` are the entries yielded by
    the `for await` iteration, `iteration` is whether that iteration itself
    completed (it can reject on a corrupt central directory), and `close` is
    the outcome of the `zip.close()` in the `finally` block (whose rejection
    replaces any result or error of the body). -/
inductive OpenResult where
  | failure (code : Option String) (message : String)
  | success (entries : List RawEntry) (iteration : Except String Unit)
      (close : Except String Unit)

structure ValidationResult where
  valid : Bool
  errors : List String
  warnings : List String
deriving DecidableEq

def SUPPORTED_MAJOR_VERSIONS : List Nat := [1]

/-- JS `Map.set` semantics: replace in place if present, append otherwise. -/
def insertEntry (m : List (String × Except String String)) (k : String)
    (v : Except String String) : List (String × Except String String) :=
  if m.any (fun e => e.1 == k) then
    m.map (fun e => if e.1 == k then (k, v) else e)
  else m ++ [(k, v)]

/-- The `entries` map built by iterating the archive. -/
def buildEntries (raw : List RawEntry) : List (String × Except String String) :=
  raw.foldl (fun m e => insertEntry m e.filename e.content) []

/-- `entries.get(k)`. -/
def getEntry (m : List (String × Except String String)) (k : String) :
    Option (Except String String) :=
  (m.find? (fun e => e.1 == k)).map (·.2)

/-- The `MAJOR.MINOR` grammar test `version.match(/^(\d+)\.\d+$/)`: the digits
    of the major component when the whole string matches, `none` otherwise. -/
def versionMajorDigits (cs : List Char) : Option (List Char) :=
  let a := cs.takeWhile Char.isDigit
  match cs.dropWhile Char.isDigit with
  | '.' :: b =>
      if a.isEmpty || b.isEmpty || !b.all Char.isDigit then none else some a
  | _ => none

/-- Level 2 of `validate`: the VERSION file checks.  Input is the VERSION
    content when the entry is present.  Returns (errors, warnings). -/
def level2 (versionContent : Option String) : List String × List String :=
  match versionContent with
  | none => ([], ["Missing VERSION file (assuming version 1.0)"])
  | some content =>
      let version := jsTrim content
      match versionMajorDigits version.data with
      | none =>
          (["Invalid version format: \"" ++ version ++
            "\" (expected MAJOR.MINOR)"], [])
      | some ds =>
          let major := digitsToNat ds
          if SUPPORTED_MAJOR_VERSIONS.contains major then ([], [])
          else
            (["Unsupported major version: " ++ toString major ++
              " (supported: 1)"], [])

/-- The `smp:bounds` checks of level 5, on the metadata object. -/
def boundsErrorsOf (metadata : Json) : List String :=
  match getProp metadata "smp:bounds" with
  | some (Json.arr [w, s, e, n]) =>
      if isNumber (some w) && isNumber (some s) &&
         isNumber (some e) && isNumber (some n) then []
      else ["smp:bounds values must be numbers"]
  | _ => ["Missing or invalid smp:bounds in style.json metadata"]

/-- The `smp:maxzoom` check of level 5, on the metadata object. -/
def maxzoomErrorsOf (metadata : Json) : List String :=
  if isNumber (getProp metadata "smp:maxzoom") then []
  else ["Missing or invalid smp:maxzoom in style.json metadata"]

/-- The `smp:sourceFolders` check of level 5, on the metadata object. -/
def sfWarningsOf (metadata : Json) : List String :=
  match getProp metadata "smp:sourceFolders" with
  | some sf =>
      if jsTruthy sf && !isJsObjectType (some sf) then
        ["Invalid smp:sourceFolders in style.json metadata"]
      else []
  | none => []

/-- Level 5 of `validate`: the SMP metadata checks (`style.metadata || {}`
    then the three field checks).  Returns (errors, warnings).  The property
    access `style.metadata` throws an uncaught TypeError when the parsed style
    is JSON `null` (any other primitive yields `undefined` and falls through
    to `{}`). -/
def level5 (style : Json) : Except String (List String × List String) :=
  match style with
  | Json.null =>
      Except.error "TypeError: Cannot read properties of null (reading metadata)"
  | _ =>
      let metadata :=
        match getProp style "metadata" with
        | some m => if jsTruthy m then m else Json.obj []
        | none => Json.obj []
      Except.ok
        (boundsErrorsOf metadata ++ maxzoomErrorsOf metadata,
         sfWarningsOf metadata)

/-- The level-6 error message for a source with no tile files. -/
def tileMsg (sourceId tilePre : String) : String :=
  "No tile files found for source \"" ++ sourceId ++
  "\" (expected under " ++ tilePre ++ ")"

/-- `entries.keys()` scan: is some filename prefixed by the tile path? -/
def hasTileEntries (entries : List (String × Except String String))
    (tilePre : String) : Bool :=
  entries.any (fun e => jsStartsWith e.1 tilePre)

/-- Level 6 of `validate`, per tile URL: the `No tile files found` check. -/
def tileUrlErrors (entries : List (String × Except String String))
    (sourceId : String) (tileUrl : Json) : List String :=
  match tileUrl with
  | .str url =>
      if jsStartsWith url URI_BASE then
        let templatePath := url.data.drop URI_BASE.data.length
        match indexOfSub templatePath "{z}".data with
        | none => []
        | some k =>
            if hasTileEntries entries ⟨templatePath.take k⟩ then []
            else [tileMsg sourceId ⟨templatePath.take k⟩]
      else []
  | _ => []

/-- The `Object.entries(style.sources)` loop of level 6.  The property access
    `source.tiles` throws an uncaught TypeError when a source value is JSON
    `null`. -/
def sourcesFold (entries : List (String × Except String String)) :
    List (String × Json) → List String → Except String (List String)
  | [], acc => Except.ok acc
  | (sid, source) :: rest, acc =>
      match source with
      | Json.null =>
          Except.error "TypeError: Cannot read properties of null (reading tiles)"
      | _ =>
          match getProp source "tiles" with
          | some (Json.arr tiles) =>
              sourcesFold entries rest
                (acc ++ tiles.flatMap (tileUrlErrors entries sid))
          | _ => sourcesFold entries rest acc

/-- Level 6 of `validate`: source tile-file verification. -/
def level6 (entries : List (String × Except String String)) (style : Json) :
    Except String (List String) :=
  match getProp style "sources" with
  | some sources =>
      if jsTruthy sources then sourcesFold entries (jsEntries sources) []
      else Except.ok []
  | none => Except.ok []

/-- Level 7 of `validate`: glyph-file verification. -/
def level7 (entries : List (String × Except String String)) (style : Json) :
    List String :=
  match getProp style "glyphs" with
  | some (.str g) =>
      if jsStartsWith g URI_BASE then
        let glyphTemplate := g.data.drop URI_BASE.data.length
        let glyphPre : List Char :=
          match indexOfSub glyphTemplate "{fontstack}".data with
          | some k => if 0 < k then glyphTemplate.take k else []
          | none => []
        let has := entries.any (fun e =>
          if glyphPre.isEmpty then jsEndsWith e.1 ".pbf.gz"
          else jsStartsWith e.1 ⟨glyphPre⟩)
        if has then [] else
          ["style.json references glyphs but no glyph files found"]
      else []
  | _ => []

/-- `entries.has(path)`. -/
def hasEntry (entries : List (String × Except String String)) (p : String) : Bool :=
  entries.any (fun e => e.1 == p)

/-- The level-8 error message for a missing 1x sprite file. -/
def spriteMissingMsg (path : String) : String := "Missing sprite file: " ++ path

/-- The level-8 warning for a missing @2x sprite pair. -/
def sprite2xMsg (basePath : String) : String :=
  "Missing @2x sprite for \"" ++ basePath ++ "\" (recommended but not required)"

/-- `validateSpriteFiles` from src/lib/validator.js.  Returns (errors, warnings). -/
def validateSpriteFiles (entries : List (String × Except String String))
    (basePath : String) : List String × List String :=
  let e1 := if hasEntry entries (basePath ++ ".json") then []
            else [spriteMissingMsg (basePath ++ ".json")]
  let e2 := if hasEntry entries (basePath ++ ".png") then []
            else [spriteMissingMsg (basePath ++ ".png")]
  let w := if hasEntry entries (basePath ++ "@2x.json") &&
              hasEntry entries (basePath ++ "@2x.png") then []
           else [sprite2xMsg basePath]
  (e1 ++ e2, w)

/-- The `for (const { url } of style.sprite)` loop of level 8.  The
    destructuring throws an uncaught TypeError on a JSON `null` element; on
    any other non-object element `url` is `undefined` and the element is
    skipped. -/
def spriteArrayFold (entries : List (String × Except String String)) :
    List Json → List String × List String →
    Except String (List String × List String)
  | [], acc => Except.ok acc
  | elem :: rest, acc =>
      match elem with
      | Json.null =>
          Except.error "TypeError: Cannot destructure property url of null as it is null."
      | _ =>
          match getProp elem "url" with
          | some (.str u) =>
              if jsStartsWith u URI_BASE then
                let r := validateSpriteFiles entries
                  ⟨u.data.drop URI_BASE.data.length⟩
                spriteArrayFold entries rest (acc.1 ++ r.1, acc.2 ++ r.2)
              else spriteArrayFold entries rest acc
          | _ => spriteArrayFold entries rest acc

/-- Level 8 of `validate`: sprite-file verification.  Returns (errors, warnings). -/
def level8 (entries : List (String × Except String String)) (style : Json) :
    Except String (List String × List String) :=
  match getProp style "sprite" with
  | some (.str sp) =>
      if jsStartsWith sp URI_BASE then
        Except.ok (validateSpriteFiles entries ⟨sp.data.drop URI_BASE.data.length⟩)
      else Except.ok ([], [])
  | some (.arr l) => spriteArrayFold entries l ([], [])
  | _ => Except.ok ([], [])

/-- Levels 3-8 of `validate`, entered after the VERSION checks with the entry
    map and the VERSION content in hand.  Level-5, level-6 and level-8
    TypeErrors are not caught by the source and propagate as `.error`. -/
def validateRest (vsm : Json → List String) (pj : String → Except String Json)
    (entries : List (String × Except String String))
    (versionContent : Option String) : Except String ValidationResult :=
  let l2 := level2 versionContent
  match getEntry entries STYLE_FILE with
  | none => .ok ⟨false, l2.1 ++ ["Missing style.json"], l2.2⟩
  | some styleRead =>
      let parsed : Except String Json :=
        match styleRead with
        | .error m => .error m
        | .ok c => pj c
      match parsed with
      | .error m =>
          .ok ⟨false, l2.1 ++ ["style.json is not valid JSON: " ++ m], l2.2⟩
      | .ok style =>
          match level5 style with
          | .error e => .error e
          | .ok l5 =>
              match level6 entries style with
              | .error e => .error e
              | .ok l6 =>
                  match level8 entries style with
                  | .error e => .error e
                  | .ok l8 =>
                      let errors := l2.1 ++
                        (vsm style).map (fun m => "style.json: " ++ m) ++
                        l5.1 ++ l6 ++ level7 entries style ++ l8.1
                      let warnings := l2.2 ++ l5.2 ++ l8.2
                      .ok ⟨errors.isEmpty, errors, warnings⟩

/-- `validate(filepath)` from src/lib/validator.js.  `vsm` is the external
    MapLibre style validator, `pj` the external JSON parser, and `openResult`
    the outcome of `open(filepath)` and of the un-guarded ZIP interactions.
    The try block has only a `finally`, so a failure of the entry iteration,
    of the VERSION entry stream read, or a level-5/6/8 TypeError propagates
    as `.error`; the `zip.close()` of the `finally` replaces any outcome of
    the body when it fails. -/
def validate (filepath : String) (vsm : Json → List String)
    (pj : String → Except String Json) (openResult : OpenResult) :
    Except String ValidationResult :=
  match openResult with
  | .failure code message =>
      if code = some "ENOENT" then
        .ok ⟨false, ["File not found: " ++ filepath], []⟩
      else
        .ok ⟨false, ["Not a valid ZIP file: " ++ message], []⟩
  | .success raw iteration close =>
      let body : Except String ValidationResult :=
        match iteration with
        | .error e => .error e
        | .ok _ =>
            match getEntry (buildEntries raw) VERSION_FILE with
            | some (.error e) => .error e
            | some (.ok c) => validateRest vsm pj (buildEntries raw) (some c)
            | none => validateRest vsm pj (buildEntries raw) none
      match close with
      | .error ce => .error ce
      | .ok _ => body

/-! ## Geo primitives

Modelled from the spec: src/lib/utils/geo.js is not part of the provided
sources; only its tests are.  `getQuadkey` and `getTileUrl` below follow
section 4.1 of the spec (template selection by `(x+y) mod templates.length`,
substitution of the z/x/y, quadkey and two-hex-char tokens, and the
`tms` y flip `2^z - y - 1`). -/

inductive Scheme where
  | xyz
  | tms
deriving DecidableEq

structure TileCoord where
  z : Nat
  x : Nat
  y : Nat
  scheme : Scheme := Scheme.xyz

/-- Base-4 digits of the quadkey, most significant first. -/
def quadkeyChars (x y : Nat) : Nat → List Char
  | 0 => []
  | i + 1 =>
      let mask := 2 ^ i
      let digit := (if x / mask % 2 = 1 then 1 else 0) +
                   (if y / mask % 2 = 1 then 2 else 0)
      Char.ofNat (48 + digit) :: quadkeyChars x y i

/-- Modelled from the spec: `quadkey(z,x,y)` is the length-z base-4 string with
    y weighted 2 and x weighted 1 per bit. -/
def getQuadkey (coord : TileCoord) : String :=
  ⟨quadkeyChars coord.x coord.y coord.z⟩

def hexChar (n : Nat) : Char :=
  if n < 10 then Char.ofNat (48 + n) else Char.ofNat (87 + n)

/-- Modelled from the spec: the two-hex-char load-prefix token,
    `hex((x+y) mod 16)` padded to two characters. -/
def prefixToken (coord : TileCoord) : String :=
  ⟨['0', hexChar ((coord.x + coord.y) % 16)]⟩

/-- Decimal digit character. -/
def digitChar (n : Nat) : Char :=
  if n = 0 then '0' else if n = 1 then '1' else if n = 2 then '2'
  else if n = 3 then '3' else if n = 4 then '4' else if n = 5 then '5'
  else if n = 6 then '6' else if n = 7 then '7' else if n = 8 then '8'
  else if n = 9 then '9' else '?'

/-- Decimal digits of a natural number, most significant first (fuelled). -/
def natDigitsAux : Nat → Nat → List Char
  | 0, _ => []
  | fuel + 1, n =>
      if n < 10 then [digitChar n]
      else natDigitsAux fuel (n / 10) ++ [digitChar (n % 10)]

/-- JS `String(n)` for a natural number. -/
def natRepr (n : Nat) : String := ⟨natDigitsAux (n + 1) n⟩

/-- Replace every occurrence of `pat` in `s` by `rep`; fuel-driven scan. -/
def replaceSub : Nat → List Char → List Char → List Char → List Char
  | 0, s, _, _ => s
  | _ + 1, [], _, _ => []
  | fuel + 1, c :: rest, pat, rep =>
      if !pat.isEmpty && pat.isPrefixOf (c :: rest) then
        rep ++ replaceSub fuel ((c :: rest).drop pat.length) pat rep
      else c :: replaceSub fuel rest pat rep

def jsReplaceAll (s pat rep : String) : String :=
  ⟨replaceSub s.data.length s.data pat.data rep.data⟩

/-- Modelled from the spec: `renderTileUrl(templates, coord)` — pick
    `templates[(x+y) mod templates.length]`, substitute the placeholders,
    flipping y to `2^z - y - 1` for the `tms` scheme. -/
def getTileUrl (templates : List String) (coord : TileCoord) : String :=
  let template := templates.getD ((coord.x + coord.y) % templates.length) ""
  let yVal :=
    match coord.scheme with
    | .tms => 2 ^ coord.z - coord.y - 1
    | .xyz => coord.y
  let s1 := jsReplaceAll template "{z}" (natRepr coord.z)
  let s2 := jsReplaceAll s1 "{x}" (natRepr coord.x)
  let s3 := jsReplaceAll s2 "{y}" (natRepr yVal)
  let s4 := jsReplaceAll s3 "{quadkey}" (getQuadkey coord)
  jsReplaceAll s4 "\x7bprefix\x7d" (prefixToken coord)

/-! ## Mapbox URL normalization

Modelled from the spec: src/lib/utils/mapbox.js is not part of the provided
sources; only its tests are.  The definitions follow section 4.3 of the spec:
`mapbox://` URLs expand to `api.mapbox.com` endpoints and gain
`?access_token={token}`; a missing token fails with `MissingAccessToken`, a
token beginning with `sk.` fails with `SecretToken`; other URLs pass through
(the sprite normalizer appends its format and extension arguments, per its
tests). -/

inductive MapboxError where
  | missingAccessToken
  | secretToken
deriving DecidableEq

def isMapboxURL (url : String) : Bool := jsStartsWith url "mapbox://"

def checkAccessToken (token : Option String) : Except MapboxError String :=
  match token with
  | none => .error .missingAccessToken
  | some t => if jsStartsWith t "sk." then .error .secretToken else .ok t

/-- Modelled from the spec: `styles/{user}/{id}` expands to the
    `api.mapbox.com/styles/v1` endpoint. -/
def normalizeStyleURL (url : String) (token : Option String := none) :
    Except MapboxError String :=
  if !isMapboxURL url then .ok url
  else
    (checkAccessToken token).map (fun t =>
      "https://api.mapbox.com/styles/v1/" ++
      ⟨url.data.drop "mapbox://styles/".data.length⟩ ++ "?access_token=" ++ t)

/-- Modelled from the spec: `fonts/{user}/{stack}/{range}.pbf` expands to the
    `api.mapbox.com/fonts/v1` endpoint. -/
def normalizeGlyphsURL (url : String) (token : Option String := none) :
    Except MapboxError String :=
  if !isMapboxURL url then .ok url
  else
    (checkAccessToken token).map (fun t =>
      "https://api.mapbox.com/fonts/v1/" ++
      ⟨url.data.drop "mapbox://fonts/".data.length⟩ ++ "?access_token=" ++ t)

/-- Modelled from the spec: `mapbox://{tileset}` expands to the
    `api.mapbox.com/v4/{tileset}.json?secure` source-metadata endpoint. -/
def normalizeSourceURL (url : String) (token : Option String := none) :
    Except MapboxError String :=
  if !isMapboxURL url then .ok url
  else
    (checkAccessToken token).map (fun t =>
      "https://api.mapbox.com/v4/" ++
      ⟨url.data.drop "mapbox://".data.length⟩ ++
      ".json?secure&access_token=" ++ t)

/-- Modelled from the spec: `sprites/{user}/{id}` expands to the
    `api.mapbox.com/styles/v1/.../sprite{format}{ext}` endpoint; a
    non-mapbox URL gains the `format` and `ext` suffixes (per its test). -/
def normalizeSpriteURL (url format ext : String)
    (token : Option String := none) : Except MapboxError String :=
  if !isMapboxURL url then .ok (url ++ format ++ ext)
  else
    (checkAccessToken token).map (fun t =>
      "https://api.mapbox.com/styles/v1/" ++
      ⟨url.data.drop "mapbox://sprites/".data.length⟩ ++
      "/sprite" ++ format ++ ext ++ "?access_token=" ++ t)

/-! ## Error classification

Modelled from the spec: src/lib/utils/errors.js is not part of the provided
sources; only its tests are.  Per section 7 of the spec, `EPERM` is treated as
`NotFound` alongside `ENOENT`; non-Error values are never classified as
file-not-there.  The first argument states whether the value is an `Error`
instance, the second its `code` property. -/
def isFileNotThereError (isErrorInstance : Bool) (code : Option String) : Bool :=
  isErrorInstance && (code == some "ENOENT" || code == some "EPERM")

/-! ## Concrete style families used in the claim statements -/

/-- A well-formed SMP metadata object (numeric bounds and maxzoom). -/
def goodMeta : Json := Json.obj
  [("smp:bounds",
    Json.arr [Json.num (-180), Json.num (-85), Json.num 180, Json.num 85]),
   ("smp:maxzoom", Json.num 5)]

/-- A minimal style that passes every metadata check and references no
    tiles, glyphs or sprites. -/
def goodStyle : Json := Json.obj [("metadata", goodMeta)]

/-- An external style validator reporting no messages. -/
def vsmNil : Json → List String := fun _ => []

/-- An external JSON parser that yields `goodStyle` for any content. -/
def pjGood : String → Except String Json := fun _ => Except.ok goodStyle

/-- A style with good metadata and a single tile source `sourceId` whose only
    tiles template is the internal URI `smp://maps.v1/ ++ tp`. -/
def mkTileStyle (sourceId tp : String) : Json := Json.obj
  [("metadata", goodMeta),
   ("sources", Json.obj
     [(sourceId, Json.obj [("tiles", Json.arr [Json.str (URI_BASE ++ tp)])])])]

/-- A style with good metadata and a string `sprite` property holding the
    internal URI `smp://maps.v1/ ++ base`. -/
def mkSpriteStyle (base : String) : Json := Json.obj
  [("metadata", goodMeta), ("sprite", Json.str (URI_BASE ++ base))]

/-- A style with good metadata and an array `sprite` property: one
    `{id, url}` element per base path, each with an internal URI. -/
def mkSpriteArrayStyle (bases : List String) : Json := Json.obj
  [("metadata", goodMeta),
   ("sprite", Json.arr (bases.map (fun b => Json.obj
     [("id", Json.str b), ("url", Json.str (URI_BASE ++ b))])))]

/-- A style whose metadata is an arbitrary JSON object. -/
def mkMetaStyle (md : List (String × Json)) : Json :=
  Json.obj [("metadata", Json.obj md)]

/-! ## Helper lemmas -/

theorem strMk_data (s : String) : (⟨s.data⟩ : String) = s := by
  cases s
  rfl

theorem isPrefixOf_append_self : ∀ (a b : List Char),
    a.isPrefixOf (a ++ b) = true := by
  intro a b
  induction a with
  | nil => simp [List.isPrefixOf]
  | cons c cs ih => simp [List.isPrefixOf, ih]

theorem isPrefixOf_append_right : ∀ (p l t : List Char),
    p.isPrefixOf l = true → p.isPrefixOf (l ++ t) = true := by
  intro p
  induction p with
  | nil =>
      intro l t _
      simp [List.isPrefixOf]
  | cons c cs ih =>
      intro l t h
      cases l with
      | nil => simp [List.isPrefixOf] at h
      | cons d ds =>
          simp only [List.isPrefixOf, Bool.and_eq_true] at h
          simp only [List.cons_append, List.isPrefixOf, Bool.and_eq_true]
          exact ⟨h.1, ih ds t h.2⟩

theorem jsStartsWith_self_append (p s : String) :
    jsStartsWith (p ++ s) p = true := by
  unfold jsStartsWith
  rw [String.data_append]
  exact isPrefixOf_append_self _ _

theorem jsStartsWith_of_data {s p : String} {t : List Char}
    (h : s.data = p.data ++ t) : jsStartsWith s p = true := by
  unfold jsStartsWith
  rw [h]
  exact isPrefixOf_append_self _ _

theorem data_drop_append (p s : String) :
    ((p ++ s).data).drop p.data.length = s.data := by
  rw [String.data_append]
  exact List.drop_left _ _

theorem level2_v10 : level2 (some "1.0\n") = ([], []) := by decide

theorem level5_mkTileStyle (sid tp : String) :
    level5 (mkTileStyle sid tp) = Except.ok ([], []) := rfl

theorem level7_mkTileStyle (E : List (String × Except String String))
    (sid tp : String) : level7 E (mkTileStyle sid tp) = [] := rfl

theorem level8_mkTileStyle (E : List (String × Except String String))
    (sid tp : String) :
    level8 E (mkTileStyle sid tp) = Except.ok ([], []) := rfl

theorem tileUrlErrors_internal (E : List (String × Except String String))
    (sid tp : String) (k : Nat)
    (hk : indexOfSub tp.data "{z}".data = some k) :
    tileUrlErrors E sid (Json.str (URI_BASE ++ tp)) =
      if hasTileEntries E ⟨tp.data.take k⟩ then []
      else [tileMsg sid ⟨tp.data.take k⟩] := by
  unfold tileUrlErrors
  simp only [jsStartsWith_self_append, data_drop_append, hk, if_true]

theorem level6_mkTileStyle (E : List (String × Except String String))
    (sid tp : String) (k : Nat)
    (hk : indexOfSub tp.data "{z}".data = some k) :
    level6 E (mkTileStyle sid tp) = Except.ok
      (if hasTileEntries E ⟨tp.data.take k⟩ then []
       else [tileMsg sid ⟨tp.data.take k⟩]) := by
  simp only [level6, mkTileStyle, getProp, jsEntries, jsTruthy, List.find?,
    show ("metadata" == "sources") = false from rfl,
    show ("sources" == "sources") = true from rfl,
    Option.map, if_true]
  simp only [sourcesFold, getProp, List.find?,
    show ("tiles" == "tiles") = true from rfl, Option.map,
    List.flatMap_cons, List.flatMap_nil, List.append_nil, List.nil_append,
    tileUrlErrors_internal E sid tp k hk]

/-- Control-flow of `validate` once the archive opened and closed cleanly,
    the VERSION content is known, the style parses and levels 5, 6 and 8
    raise no TypeError: the result aggregates the levelwise messages in push
    order. -/
theorem validate_structure (fp : String) (vsm : Json → List String)
    (pj : String → Except String Json) (raw : List RawEntry)
    (vcOpt : Option String) (sc : String) (S : Json)
    (l5 : List String × List String) (l6v : List String)
    (l8v : List String × List String)
    (hv : getEntry (buildEntries raw) VERSION_FILE = vcOpt.map Except.ok)
    (hs : getEntry (buildEntries raw) STYLE_FILE = some (Except.ok sc))
    (hp : pj sc = Except.ok S)
    (h5 : level5 S = Except.ok l5)
    (h6 : level6 (buildEntries raw) S = Except.ok l6v)
    (h8 : level8 (buildEntries raw) S = Except.ok l8v) :
    validate fp vsm pj
      (OpenResult.success raw (Except.ok ()) (Except.ok ())) = Except.ok
      ⟨((level2 vcOpt).1 ++ (vsm S).map (fun m => "style.json: " ++ m) ++
         l5.1 ++ l6v ++ level7 (buildEntries raw) S ++ l8v.1).isEmpty,
       (level2 vcOpt).1 ++ (vsm S).map (fun m => "style.json: " ++ m) ++
         l5.1 ++ l6v ++ level7 (buildEntries raw) S ++ l8v.1,
       (level2 vcOpt).2 ++ l5.2 ++ l8v.2⟩ := by
  cases vcOpt with
  | none =>
      simp only [Option.map_none'] at hv
      simp only [validate, hv, validateRest, hs, hp, h5, h6, h8]
  | some c =>
      simp only [Option.map_some'] at hv
      simp only [validate, hv, validateRest, hs, hp, h5, h6, h8]

/-- Whenever `validateRest` resolves, its result contains the level-2
    messages and `valid` mirrors emptiness of `errors`. -/
theorem validateRest_l2_sub (vsm : Json → List String)
    (pj : String → Except String Json)
    (entries : List (String × Except String String))
    (vcOpt : Option String) (r : ValidationResult)
    (h : validateRest vsm pj entries vcOpt = Except.ok r) :
    (∀ e ∈ (level2 vcOpt).1, e ∈ r.errors) ∧
    (∀ w ∈ (level2 vcOpt).2, w ∈ r.warnings) ∧
    r.valid = r.errors.isEmpty := by
  cases hs : getEntry entries STYLE_FILE with
  | none =>
      simp only [validateRest, hs, Except.ok.injEq] at h
      subst h
      refine ⟨fun e he => List.mem_append_left _ he, fun w hw => hw, by simp⟩
  | some styleRead =>
      cases styleRead with
      | error m =>
          simp only [validateRest, hs, Except.ok.injEq] at h
          subst h
          refine ⟨fun e he => List.mem_append_left _ he, fun w hw => hw,
            by simp⟩
      | ok c =>
          cases hp : pj c with
          | error m =>
              simp only [validateRest, hs, hp, Except.ok.injEq] at h
              subst h
              refine ⟨fun e he => List.mem_append_left _ he, fun w hw => hw,
                by simp⟩
          | ok S =>
              rcases h5 : level5 S with e5 | l5
              · simp only [validateRest, hs, hp, h5] at h
                exact Except.noConfusion h
              · rcases h6 : level6 entries S with e6 | l6v
                · simp only [validateRest, hs, hp, h5, h6] at h
                  exact Except.noConfusion h
                · rcases h8 : level8 entries S with e8 | l8v
                  · simp only [validateRest, hs, hp, h5, h6, h8] at h
                    exact Except.noConfusion h
                  · simp only [validateRest, hs, hp, h5, h6, h8,
                      Except.ok.injEq] at h
                    subst h
                    refine ⟨?_, ?_, rfl⟩
                    · intro e he
                      exact List.mem_append_left _ (List.mem_append_left _
                        (List.mem_append_left _ (List.mem_append_left _
                          (List.mem_append_left _ he))))
                    · intro w hw
                      exact List.mem_append_left _ (List.mem_append_left _ hw)

/-- `validateRest` resolves whenever the parsed style (if any) raises no
    level-5/6/8 TypeError, with `valid` mirroring emptiness of `errors`. -/
theorem validateRest_ok (vsm : Json → List String)
    (pj : String → Except String Json)
    (entries : List (String × Except String String))
    (vcOpt : Option String)
    (hstyle : ∀ sc S, getEntry entries STYLE_FILE = some (Except.ok sc) →
      pj sc = Except.ok S →
      (∃ x, level5 S = Except.ok x) ∧
      (∃ y, level6 entries S = Except.ok y) ∧
      (∃ z, level8 entries S = Except.ok z)) :
    ∃ r, validateRest vsm pj entries vcOpt = Except.ok r ∧
      r.valid = r.errors.isEmpty := by
  cases hs : getEntry entries STYLE_FILE with
  | none =>
      refine ⟨⟨false, (level2 vcOpt).1 ++ ["Missing style.json"],
        (level2 vcOpt).2⟩, ?_, by simp⟩
      simp only [validateRest, hs]
  | some styleRead =>
      cases styleRead with
      | error m =>
          refine ⟨⟨false, (level2 vcOpt).1 ++
            ["style.json is not valid JSON: " ++ m], (level2 vcOpt).2⟩,
            ?_, by simp⟩
          simp only [validateRest, hs]
      | ok c =>
          cases hp : pj c with
          | error m =>
              refine ⟨⟨false, (level2 vcOpt).1 ++
                ["style.json is not valid JSON: " ++ m], (level2 vcOpt).2⟩,
                ?_, by simp⟩
              simp only [validateRest, hs, hp]
          | ok S =>
              obtain ⟨⟨l5, h5⟩, ⟨l6v, h6⟩, ⟨l8v, h8⟩⟩ := hstyle c S hs hp
              refine ⟨⟨((level2 vcOpt).1 ++
                  (vsm S).map (fun m => "style.json: " ++ m) ++
                  l5.1 ++ l6v ++ level7 entries S ++ l8v.1).isEmpty,
                (level2 vcOpt).1 ++ (vsm S).map (fun m => "style.json: " ++ m) ++
                  l5.1 ++ l6v ++ level7 entries S ++ l8v.1,
                (level2 vcOpt).2 ++ l5.2 ++ l8v.2⟩, ?_, rfl⟩
              simp only [validateRest, hs, hp, h5, h6, h8]

theorem jsStartsWith_append_of (p l t : String)
    (hpl : jsStartsWith l p = true) : jsStartsWith (l ++ t) p = true := by
  unfold jsStartsWith at *
  rw [String.data_append]
  exact isPrefixOf_append_right _ _ _ hpl

theorem takeWhile_digits (a b : List Char) (ha : a.all Char.isDigit = true) :
    (a ++ '.' :: b).takeWhile Char.isDigit = a := by
  induction a with
  | nil =>
      simp [List.takeWhile_cons, show ('.' : Char).isDigit = false from rfl]
  | cons c cs ih =>
      simp only [List.all_cons, Bool.and_eq_true] at ha
      simp [List.cons_append, List.takeWhile_cons, ha.1, ih ha.2]

theorem dropWhile_digits (a b : List Char) (ha : a.all Char.isDigit = true) :
    (a ++ '.' :: b).dropWhile Char.isDigit = '.' :: b := by
  induction a with
  | nil =>
      simp [List.dropWhile_cons, show ('.' : Char).isDigit = false from rfl]
  | cons c cs ih =>
      simp only [List.all_cons, Bool.and_eq_true] at ha
      simp [List.cons_append, List.dropWhile_cons, ha.1, ih ha.2]

theorem versionMajorDigits_eq (a b : List Char) (ha : a ≠ []) (hb : b ≠ [])
    (hda : a.all Char.isDigit = true) (hdb : b.all Char.isDigit = true) :
    versionMajorDigits (a ++ '.' :: b) = some a := by
  unfold versionMajorDigits
  rw [dropWhile_digits a b hda]
  simp [takeWhile_digits a b hda, List.isEmpty_iff, ha, hb, hdb]

/-- Level 2 on a VERSION content whose trimmed form is `MAJOR.MINOR`:
    no grammar error; only an unsupported-major error can remain. -/
theorem level2_parsed (c : String) (a b : List Char) (ha : a ≠ []) (hb : b ≠ [])
    (hda : a.all Char.isDigit = true) (hdb : b.all Char.isDigit = true)
    (h : (jsTrim c).data = a ++ '.' :: b) :
    level2 (some c) =
      (if digitsToNat a = 1 then ([], [])
       else (["Unsupported major version: " ++ toString (digitsToNat a) ++
              " (supported: 1)"], [])) := by
  simp only [level2]
  rw [h, versionMajorDigits_eq a b ha hb hda hdb]
  by_cases h1 : digitsToNat a = 1
  · simp [h1, SUPPORTED_MAJOR_VERSIONS]
  · simp [h1, SUPPORTED_MAJOR_VERSIONS]

/-- Every level-2 error message is a version message. -/
theorem level2_err_shape (vc : Option String) (e : String)
    (he : e ∈ (level2 vc).1) :
    jsStartsWith e "Invalid version format" = true ∨
    jsStartsWith e "Unsupported major version" = true := by
  cases vc with
  | none => simp [level2] at he
  | some c =>
      simp only [level2] at he
      split at he
      · simp only [List.mem_singleton] at he
        subst he
        left
        exact jsStartsWith_append_of _ _ _
          (jsStartsWith_append_of _ _ _ (by decide))
      · split at he
        · simp at he
        · simp only [List.mem_singleton] at he
          subst he
          right
          exact jsStartsWith_append_of _ _ _
            (jsStartsWith_append_of _ _ _ (by decide))

theorem invalid_ne_unsupported (v m : String) :
    ("Invalid version format: \"" ++ v ++ "\" (expected MAJOR.MINOR)") ≠
      ("Unsupported major version: " ++ m ++ " (supported: 1)") := by
  intro h
  have h1 : jsStartsWith
      ("Invalid version format: \"" ++ v ++ "\" (expected MAJOR.MINOR)") "I" =
      true :=
    jsStartsWith_append_of _ _ _ (jsStartsWith_append_of _ _ _ (by decide))
  have h2 : jsStartsWith
      ("Unsupported major version: " ++ m ++ " (supported: 1)") "I" = false :=
    rfl
  rw [h] at h1
  exact Bool.noConfusion (h1.symm.trans h2)

theorem level5_metaObj (md : List (String × Json)) :
    level5 (mkMetaStyle md) = Except.ok
      (boundsErrorsOf (Json.obj md) ++ maxzoomErrorsOf (Json.obj md),
       sfWarningsOf (Json.obj md)) := rfl

theorem level6_metaObj (E : List (String × Except String String))
    (md : List (String × Json)) :
    level6 E (mkMetaStyle md) = Except.ok [] := rfl

theorem level7_metaObj (E : List (String × Except String String))
    (md : List (String × Json)) : level7 E (mkMetaStyle md) = [] := rfl

theorem level8_metaObj (E : List (String × Except String String))
    (md : List (String × Json)) :
    level8 E (mkMetaStyle md) = Except.ok ([], []) := rfl

theorem boundsErrorsOf_shape (m : Json) :
    ∀ x ∈ boundsErrorsOf m,
      x = "smp:bounds values must be numbers" ∨
      x = "Missing or invalid smp:bounds in style.json metadata" := by
  intro x hx
  unfold boundsErrorsOf at hx
  split at hx
  · split at hx
    · simp at hx
    · left
      simpa using hx
  · right
    simpa using hx

theorem maxzoomErrorsOf_shape (m : Json) :
    ∀ x ∈ maxzoomErrorsOf m,
      x = "Missing or invalid smp:maxzoom in style.json metadata" := by
  intro x hx
  unfold maxzoomErrorsOf at hx
  split at hx
  · simp at hx
  · simpa using hx

theorem sfWarningsOf_shape (m : Json) :
    ∀ x ∈ sfWarningsOf m,
      x = "Invalid smp:sourceFolders in style.json metadata" := by
  intro x hx
  unfold sfWarningsOf at hx
  split at hx
  · split at hx
    · simpa using hx
    · simp at hx
  · simp at hx

/-! ## Claim C1 -/

/-- Claim C1 counterexample: an archive whose `style.json` metadata has
    `smp:bounds` present as an array of four strings (a present-but-malformed
    SMP field) makes `validate` report the malformation as an error
    (`smp:bounds values must be numbers`) with no warnings — not as a warning
    as the claim states. -/
theorem claim_c1_counterexample :
    validate "file.smp" (fun _ => [])
      (fun _ => Except.ok (Json.obj [("metadata", Json.obj
        [("smp:bounds", Json.arr
          [Json.str "a", Json.str "b", Json.str "c", Json.str "d"]),
         ("smp:maxzoom", Json.num 5)])]))
      (OpenResult.success
        [⟨"VERSION", Except.ok "1.0\n"⟩, ⟨"style.json", Except.ok "{}"⟩]
        (Except.ok ()) (Except.ok ())) =
      Except.ok ⟨false, ["smp:bounds values must be numbers"], []⟩ := by
  rfl

/-- Claim C1 (amended): for an archive whose `style.json` metadata is an
    object, a present, truthy, non-object `smp:sourceFolders` is reported as a
    warning (and not an error); but a present `smp:bounds` that is a 4-element
    array with a non-number entry is reported as an **error** (and not a
    warning), and an absent `smp:bounds` or `smp:maxzoom` is reported as an
    error. -/
theorem claim_c1_amended (fp sc : String) (vsm : Json → List String)
    (pj : String → Except String Json) (raw : List RawEntry)
    (md : List (String × Json)) (r : ValidationResult)
    (hv : getEntry (buildEntries raw) VERSION_FILE = some (Except.ok "1.0\n"))
    (hs : getEntry (buildEntries raw) STYLE_FILE = some (Except.ok sc))
    (hp : pj sc = Except.ok (mkMetaStyle md))
    (hvsm : vsm (mkMetaStyle md) = [])
    (hr : validate fp vsm pj
      (OpenResult.success raw (Except.ok ()) (Except.ok ())) = Except.ok r) :
    (getProp (Json.obj md) "smp:bounds" = none →
      "Missing or invalid smp:bounds in style.json metadata" ∈ r.errors) ∧
    (∀ w s e n,
      getProp (Json.obj md) "smp:bounds" = some (Json.arr [w, s, e, n]) →
      (isNumber (some w) && isNumber (some s) && isNumber (some e) &&
        isNumber (some n)) = false →
      "smp:bounds values must be numbers" ∈ r.errors ∧
      "smp:bounds values must be numbers" ∉ r.warnings) ∧
    (getProp (Json.obj md) "smp:maxzoom" = none →
      "Missing or invalid smp:maxzoom in style.json metadata" ∈ r.errors) ∧
    (∀ sf, getProp (Json.obj md) "smp:sourceFolders" = some sf →
      jsTruthy sf = true → isJsObjectType (some sf) = false →
      "Invalid smp:sourceFolders in style.json metadata" ∈ r.warnings ∧
      "Invalid smp:sourceFolders in style.json metadata" ∉ r.errors) := by
  have hstruct := validate_structure fp vsm pj raw (some "1.0\n") sc
    (mkMetaStyle md) _ _ _ hv hs hp (level5_metaObj md)
    (level6_metaObj (buildEntries raw) md) (level8_metaObj (buildEntries raw) md)
  rw [hstruct] at hr
  simp only [Except.ok.injEq] at hr
  subst hr
  simp only [level2_v10, hvsm, level7_metaObj, List.map_nil, List.nil_append,
    List.append_nil]
  refine ⟨?_, ?_, ?_, ?_⟩
  · intro h
    have hb : boundsErrorsOf (Json.obj md) =
        ["Missing or invalid smp:bounds in style.json metadata"] := by
      simp [boundsErrorsOf, h]
    rw [hb]
    simp
  · intro w s e n h hnum
    have hb : boundsErrorsOf (Json.obj md) =
        ["smp:bounds values must be numbers"] := by
      simp [boundsErrorsOf, h, hnum]
    constructor
    · rw [hb]
      simp
    · intro hmem
      have := sfWarningsOf_shape (Json.obj md) _ hmem
      exact absurd this (by decide)
  · intro h
    have hm : maxzoomErrorsOf (Json.obj md) =
        ["Missing or invalid smp:maxzoom in style.json metadata"] := by
      simp [maxzoomErrorsOf, h, isNumber]
    rw [hm]
    simp
  · intro sf hsf htr hobj
    constructor
    · have hw : sfWarningsOf (Json.obj md) =
          ["Invalid smp:sourceFolders in style.json metadata"] := by
        simp [sfWarningsOf, hsf, htr, hobj]
      rw [hw]
      simp
    · intro hmem
      rcases List.mem_append.mp hmem with h | h
      · rcases boundsErrorsOf_shape _ _ h with h2 | h2 <;>
          exact absurd h2 (by decide)
      · exact absurd (maxzoomErrorsOf_shape _ _ h) (by decide)

/-- Claim C1 (amended) witness: the amended statement instantiated on a
    concrete archive whose metadata lacks `smp:bounds` and `smp:maxzoom` and
    has a string `smp:sourceFolders`. -/
theorem claim_c1_amended_witness :
    "Missing or invalid smp:bounds in style.json metadata" ∈
      (⟨false,
        ["Missing or invalid smp:bounds in style.json metadata",
         "Missing or invalid smp:maxzoom in style.json metadata"],
        ["Invalid smp:sourceFolders in style.json metadata"]⟩ :
        ValidationResult).errors :=
  (claim_c1_amended "f" "{}" vsmNil
    (fun _ => Except.ok (mkMetaStyle [("smp:sourceFolders", Json.str "x")]))
    [⟨"VERSION", Except.ok "1.0\n"⟩, ⟨"style.json", Except.ok "{}"⟩]
    [("smp:sourceFolders", Json.str "x")] _
    rfl rfl rfl rfl rfl).1 rfl

/-! ## Claim C2 -/

theorem validate_version_some (fp : String) (vsm : Json → List String)
    (pj : String → Except String Json) (raw : List RawEntry) (c : String)
    (hv : getEntry (buildEntries raw) VERSION_FILE = some (Except.ok c)) :
    validate fp vsm pj (OpenResult.success raw (Except.ok ()) (Except.ok ())) =
      validateRest vsm pj (buildEntries raw) (some c) := by
  simp only [validate, hv]

theorem validate_version_none (fp : String) (vsm : Json → List String)
    (pj : String → Except String Json) (raw : List RawEntry)
    (hv : getEntry (buildEntries raw) VERSION_FILE = none) :
    validate fp vsm pj (OpenResult.success raw (Except.ok ()) (Except.ok ())) =
      validateRest vsm pj (buildEntries raw) none := by
  simp only [validate, hv]

theorem level2_some_invalid (c : String)
    (h : versionMajorDigits (jsTrim c).data = none) :
    level2 (some c) =
      (["Invalid version format: \"" ++ jsTrim c ++
        "\" (expected MAJOR.MINOR)"], []) := by
  simp only [level2, h]

theorem level2_some_unsupported (c : String) (ds : List Char)
    (h : versionMajorDigits (jsTrim c).data = some ds)
    (h1 : digitsToNat ds ≠ 1) :
    level2 (some c) =
      (["Unsupported major version: " ++ toString (digitsToNat ds) ++
        " (supported: 1)"], []) := by
  simp only [level2, h]
  have hc : digitsToNat ds ∉ SUPPORTED_MAJOR_VERSIONS := by
    simp [SUPPORTED_MAJOR_VERSIONS]
    omega
  simp [hc]

/-- Claim C2: a missing VERSION entry yields only a warning (whenever
    `validate` resolves, the warning is in `warnings`), and the archive can
    still be valid; VERSION content whose trimmed form fails the `MAJOR.MINOR`
    grammar yields an `Invalid version format` error; a parsed major outside
    `{1}` yields an `Unsupported major version` error; and a `VERSION` of
    `1.1\n` with an otherwise valid style yields `valid = true` with no
    errors or warnings. -/
theorem claim_c2 :
    (level2 none = ([], ["Missing VERSION file (assuming version 1.0)"])) ∧
    (∀ (fp : String) (vsm : Json → List String)
       (pj : String → Except String Json) (raw : List RawEntry)
       (r : ValidationResult),
       getEntry (buildEntries raw) VERSION_FILE = none →
       validate fp vsm pj
         (OpenResult.success raw (Except.ok ()) (Except.ok ())) =
         Except.ok r →
       "Missing VERSION file (assuming version 1.0)" ∈ r.warnings) ∧
    (validate "f" vsmNil pjGood
       (OpenResult.success [⟨"style.json", Except.ok "{}"⟩]
         (Except.ok ()) (Except.ok ())) =
       Except.ok ⟨true, [], ["Missing VERSION file (assuming version 1.0)"]⟩) ∧
    (∀ (fp : String) (vsm : Json → List String)
       (pj : String → Except String Json) (raw : List RawEntry)
       (c : String) (r : ValidationResult),
       getEntry (buildEntries raw) VERSION_FILE = some (Except.ok c) →
       versionMajorDigits (jsTrim c).data = none →
       validate fp vsm pj
         (OpenResult.success raw (Except.ok ()) (Except.ok ())) =
         Except.ok r →
       ("Invalid version format: \"" ++ jsTrim c ++
        "\" (expected MAJOR.MINOR)") ∈ r.errors) ∧
    (∀ (fp : String) (vsm : Json → List String)
       (pj : String → Except String Json) (raw : List RawEntry)
       (c : String) (ds : List Char) (r : ValidationResult),
       getEntry (buildEntries raw) VERSION_FILE = some (Except.ok c) →
       versionMajorDigits (jsTrim c).data = some ds →
       digitsToNat ds ≠ 1 →
       validate fp vsm pj
         (OpenResult.success raw (Except.ok ()) (Except.ok ())) =
         Except.ok r →
       ("Unsupported major version: " ++ toString (digitsToNat ds) ++
        " (supported: 1)") ∈ r.errors) ∧
    (validate "f" vsmNil pjGood
       (OpenResult.success
         [⟨"VERSION", Except.ok "1.1\n"⟩, ⟨"style.json", Except.ok "{}"⟩]
         (Except.ok ()) (Except.ok ())) =
       Except.ok ⟨true, [], []⟩) := by
  refine ⟨rfl, ?_, rfl, ?_, ?_, rfl⟩
  · intro fp vsm pj raw r hv hr
    rw [validate_version_none fp vsm pj raw hv] at hr
    exact (validateRest_l2_sub vsm pj (buildEntries raw) none r hr).2.1 _
      (by simp [level2])
  · intro fp vsm pj raw c r hv hvm hr
    rw [validate_version_some fp vsm pj raw c hv] at hr
    refine (validateRest_l2_sub vsm pj (buildEntries raw) (some c) r hr).1 _ ?_
    rw [level2_some_invalid c hvm]
    simp
  · intro fp vsm pj raw c ds r hv hvm h1 hr
    rw [validate_version_some fp vsm pj raw c hv] at hr
    refine (validateRest_l2_sub vsm pj (buildEntries raw) (some c) r hr).1 _ ?_
    rw [level2_some_unsupported c ds hvm h1]
    simp

/-- Claim C2 witness: the quantified parts of the claim instantiated at
    concrete archives (no VERSION entry; VERSION `abc\n`; VERSION `2.0\n`). -/
theorem claim_c2_witness :
    ("Missing VERSION file (assuming version 1.0)" ∈
      (⟨true, [], ["Missing VERSION file (assuming version 1.0)"]⟩ :
        ValidationResult).warnings) ∧
    ("Invalid version format: \"abc\" (expected MAJOR.MINOR)" ∈
      (⟨false, ["Invalid version format: \"abc\" (expected MAJOR.MINOR)"],
        []⟩ : ValidationResult).errors) ∧
    ("Unsupported major version: 2 (supported: 1)" ∈
      (⟨false, ["Unsupported major version: 2 (supported: 1)"],
        []⟩ : ValidationResult).errors) := by
  refine ⟨?_, ?_, ?_⟩
  · exact claim_c2.2.1 "f" vsmNil pjGood [⟨"style.json", Except.ok "{}"⟩]
      ⟨true, [], ["Missing VERSION file (assuming version 1.0)"]⟩ rfl rfl
  · exact claim_c2.2.2.2.1 "f" vsmNil pjGood
      [⟨"VERSION", Except.ok "abc\n"⟩, ⟨"style.json", Except.ok "{}"⟩]
      "abc\n" _ rfl (by decide) rfl
  · exact claim_c2.2.2.2.2.1 "f" vsmNil pjGood
      [⟨"VERSION", Except.ok "2.0\n"⟩, ⟨"style.json", Except.ok "{}"⟩]
      "2.0\n" ['2'] _ rfl (by decide) (by decide) rfl

/-! ## Claim C5 -/

/-- Claim C5 counterexample: when reading the VERSION entry stream fails, the
    failure is not caught by `validate` and propagates as a rejection instead
    of being converted into an error entry, so `validate` does not always
    resolve to a result. -/
theorem claim_c5_counterexample :
    validate "f" vsmNil pjGood
      (OpenResult.success
        [⟨"VERSION", Except.error "read error"⟩,
         ⟨"style.json", Except.ok "{}"⟩]
        (Except.ok ()) (Except.ok ())) =
      Except.error "read error" := rfl

/-- Claim C5 (amended): `validate` converts open failures (missing file,
    unreadable ZIP) into error entries and always resolves on them; when the
    archive opened, the entry iteration and `zip.close()` succeeded, the
    VERSION entry stream (if any) read successfully, and the parsed style (if
    any) raises no uncaught TypeError in the metadata/source/sprite checks,
    it resolves to a `{valid, errors, warnings}` result with
    `valid = errors.isEmpty` (style.json read/parse failures are converted
    into errors on this path); but an entry-iteration failure, a `zip.close()`
    failure, or a parsed style of JSON `null` (whose `style.metadata` access
    throws) each propagate as a rejection. -/
theorem claim_c5_amended :
    (∀ (fp msg : String) (vsm : Json → List String)
       (pj : String → Except String Json) (code : Option String),
       ∃ r, validate fp vsm pj (OpenResult.failure code msg) = Except.ok r ∧
         r.valid = r.errors.isEmpty) ∧
    (∀ (fp : String) (vsm : Json → List String)
       (pj : String → Except String Json) (raw : List RawEntry),
       (∀ m, getEntry (buildEntries raw) VERSION_FILE ≠
         some (Except.error m)) →
       (∀ sc S, getEntry (buildEntries raw) STYLE_FILE =
           some (Except.ok sc) →
         pj sc = Except.ok S →
         (∃ x, level5 S = Except.ok x) ∧
         (∃ y, level6 (buildEntries raw) S = Except.ok y) ∧
         (∃ z, level8 (buildEntries raw) S = Except.ok z)) →
       ∃ r, validate fp vsm pj
           (OpenResult.success raw (Except.ok ()) (Except.ok ())) =
           Except.ok r ∧ r.valid = r.errors.isEmpty) ∧
    (∀ (fp e : String) (vsm : Json → List String)
       (pj : String → Except String Json) (raw : List RawEntry),
       validate fp vsm pj
         (OpenResult.success raw (Except.error e) (Except.ok ())) =
         Except.error e) ∧
    (∀ (fp ce : String) (vsm : Json → List String)
       (pj : String → Except String Json) (raw : List RawEntry)
       (it : Except String Unit),
       validate fp vsm pj (OpenResult.success raw it (Except.error ce)) =
         Except.error ce) ∧
    (∀ (fp sc : String) (vsm : Json → List String)
       (pj : String → Except String Json) (raw : List RawEntry)
       (vcOpt : Option String),
       getEntry (buildEntries raw) VERSION_FILE = vcOpt.map Except.ok →
       getEntry (buildEntries raw) STYLE_FILE = some (Except.ok sc) →
       pj sc = Except.ok Json.null →
       validate fp vsm pj
         (OpenResult.success raw (Except.ok ()) (Except.ok ())) =
         Except.error
           "TypeError: Cannot read properties of null (reading metadata)") := by
  refine ⟨?_, ?_, ?_, ?_, ?_⟩
  · intro fp msg vsm pj code
    by_cases hc : code = some "ENOENT"
    · refine ⟨⟨false, ["File not found: " ++ fp], []⟩, ?_, rfl⟩
      simp [validate, hc]
    · refine ⟨⟨false, ["Not a valid ZIP file: " ++ msg], []⟩, ?_, rfl⟩
      simp [validate, hc]
  · intro fp vsm pj raw h hstyle
    cases hv : getEntry (buildEntries raw) VERSION_FILE with
    | none =>
        obtain ⟨r, hr, hvalid⟩ :=
          validateRest_ok vsm pj (buildEntries raw) none hstyle
        exact ⟨r, (validate_version_none fp vsm pj raw hv).trans hr, hvalid⟩
    | some ex =>
        cases ex with
        | ok c =>
            obtain ⟨r, hr, hvalid⟩ :=
              validateRest_ok vsm pj (buildEntries raw) (some c) hstyle
            exact ⟨r, (validate_version_some fp vsm pj raw c hv).trans hr,
              hvalid⟩
        | error m => exact absurd hv (h m)
  · intro fp e vsm pj raw
    rfl
  · intro fp ce vsm pj raw it
    rfl
  · intro fp sc vsm pj raw vcOpt hv hs hp
    cases vcOpt with
    | none =>
        simp only [Option.map_none'] at hv
        simp only [validate, hv, validateRest, hs, hp, level5]
    | some c =>
        simp only [Option.map_some'] at hv
        simp only [validate, hv, validateRest, hs, hp, level5]

/-- Claim C5 (amended) witness: the resolution part at a concrete archive
    whose VERSION entry is absent and whose style parses to a plain object. -/
theorem claim_c5_amended_witness :
    ∃ r, validate "f" vsmNil pjGood
        (OpenResult.success [⟨"style.json", Except.ok "{}"⟩]
          (Except.ok ()) (Except.ok ())) =
        Except.ok r ∧ r.valid = r.errors.isEmpty :=
  claim_c5_amended.2.1 "f" vsmNil pjGood [⟨"style.json", Except.ok "{}"⟩]
    (by
      intro m hcon
      rw [show getEntry
        (buildEntries [⟨"style.json", Except.ok "{}"⟩]) VERSION_FILE =
        none from rfl] at hcon
      cases hcon)
    (by
      intro sc S hs hp
      have hS : S = goodStyle := by
        simp only [pjGood, Except.ok.injEq] at hp
        exact hp.symm
      subst hS
      exact ⟨⟨_, rfl⟩, ⟨_, rfl⟩, ⟨_, rfl⟩⟩)

/-! ## Claim C6 -/

/-- Claim C6 counterexample: opening a file that fails with the `EPERM` code
    makes `validate` report a `Not a valid ZIP file` error, not the
    `File not found` error the claim states. -/
theorem claim_c6_counterexample :
    validate "path.smp" vsmNil pjGood
      (OpenResult.failure (some "EPERM") "operation not permitted") =
      Except.ok
        ⟨false, ["Not a valid ZIP file: operation not permitted"], []⟩ ∧
    "File not found: path.smp" ∉
      ["Not a valid ZIP file: operation not permitted"] :=
  ⟨rfl, by decide⟩

/-- Claim C6 (amended): `isFileNotThereError` classifies both `ENOENT` and
    `EPERM` (on Error instances) as file-not-there, but `validate` itself
    treats only `ENOENT` as `File not found`; any other open-failure code,
    `EPERM` included, yields a `Not a valid ZIP file` error. -/
theorem claim_c6_amended :
    (isFileNotThereError true (some "ENOENT") = true ∧
     isFileNotThereError true (some "EPERM") = true ∧
     isFileNotThereError true (some "EACCES") = false ∧
     ∀ code, isFileNotThereError false code = false) ∧
    (∀ (fp msg : String) (vsm : Json → List String)
       (pj : String → Except String Json),
       validate fp vsm pj (OpenResult.failure (some "ENOENT") msg) =
         Except.ok ⟨false, ["File not found: " ++ fp], []⟩) ∧
    (∀ (fp msg : String) (vsm : Json → List String)
       (pj : String → Except String Json) (code : Option String),
       code ≠ some "ENOENT" →
       validate fp vsm pj (OpenResult.failure code msg) =
         Except.ok ⟨false, ["Not a valid ZIP file: " ++ msg], []⟩) := by
  refine ⟨⟨rfl, rfl, rfl, fun code => rfl⟩, ?_, ?_⟩
  · intro fp msg vsm pj
    simp [validate]
  · intro fp msg vsm pj code hc
    simp [validate, hc]

/-- Claim C6 (amended) witness: the amended statement at the `EPERM` code. -/
theorem claim_c6_amended_witness :
    validate "p" vsmNil pjGood (OpenResult.failure (some "EPERM") "m") =
      Except.ok ⟨false, ["Not a valid ZIP file: m"], []⟩ :=
  claim_c6_amended.2.2 "p" "m" vsmNil pjGood (some "EPERM") (by decide)

/-! ## Claim C7 -/

/-- Claim C7 counterexample: `normalizeSpriteURL` does not return a non-mapbox
    URL unchanged — it appends its format and extension arguments. -/
theorem claim_c7_counterexample :
    normalizeSpriteURL "https://example.com/sprite" "@2x" ".png"
        (some "pk.test") = Except.ok "https://example.com/sprite@2x.png" ∧
    ("https://example.com/sprite@2x.png" : String) ≠
      "https://example.com/sprite" :=
  ⟨rfl, by decide⟩

/-- Claim C7 (amended): for every `mapbox://` URL the style, glyphs, source
    and sprite normalizers fail with `MissingAccessToken` when no token is
    supplied and with `SecretToken` when the token begins with `sk.`; for
    non-mapbox URLs, `normalizeStyleURL`, `normalizeGlyphsURL` and
    `normalizeSourceURL` return the input unchanged, while
    `normalizeSpriteURL` returns the input with its format and extension
    arguments appended. -/
theorem claim_c7_amended :
    (∀ (url f e : String), isMapboxURL url = true →
       normalizeStyleURL url none =
         Except.error MapboxError.missingAccessToken ∧
       normalizeGlyphsURL url none =
         Except.error MapboxError.missingAccessToken ∧
       normalizeSourceURL url none =
         Except.error MapboxError.missingAccessToken ∧
       normalizeSpriteURL url f e none =
         Except.error MapboxError.missingAccessToken) ∧
    (∀ (url f e t : String), isMapboxURL url = true →
       jsStartsWith t "sk." = true →
       normalizeStyleURL url (some t) = Except.error MapboxError.secretToken ∧
       normalizeGlyphsURL url (some t) = Except.error MapboxError.secretToken ∧
       normalizeSourceURL url (some t) = Except.error MapboxError.secretToken ∧
       normalizeSpriteURL url f e (some t) =
         Except.error MapboxError.secretToken) ∧
    (∀ (url f e : String) (t : Option String), isMapboxURL url = false →
       normalizeStyleURL url t = Except.ok url ∧
       normalizeGlyphsURL url t = Except.ok url ∧
       normalizeSourceURL url t = Except.ok url ∧
       normalizeSpriteURL url f e t = Except.ok (url ++ f ++ e)) := by
  refine ⟨?_, ?_, ?_⟩
  · intro url f e h
    refine ⟨?_, ?_, ?_, ?_⟩ <;>
      simp [normalizeStyleURL, normalizeGlyphsURL, normalizeSourceURL,
        normalizeSpriteURL, h, checkAccessToken, Except.map]
  · intro url f e t h hsk
    refine ⟨?_, ?_, ?_, ?_⟩ <;>
      simp [normalizeStyleURL, normalizeGlyphsURL, normalizeSourceURL,
        normalizeSpriteURL, h, checkAccessToken, hsk, Except.map]
  · intro url f e t h
    refine ⟨?_, ?_, ?_, ?_⟩ <;>
      simp [normalizeStyleURL, normalizeGlyphsURL, normalizeSourceURL,
        normalizeSpriteURL, h]

/-- Claim C7 (amended) witness: the amended statement at concrete URLs and
    tokens. -/
theorem claim_c7_amended_witness :
    (normalizeStyleURL "mapbox://styles/user/style" none =
      Except.error MapboxError.missingAccessToken) ∧
    (normalizeStyleURL "mapbox://styles/user/style" (some "sk.secret") =
      Except.error MapboxError.secretToken) ∧
    (normalizeSpriteURL "https://example.com/sprite" "@2x" ".png"
      (some "pk.t") = Except.ok ("https://example.com/sprite" ++ "@2x" ++ ".png")) :=
  ⟨(claim_c7_amended.1 "mapbox://styles/user/style" "" "" (by decide)).1,
   (claim_c7_amended.2.1 "mapbox://styles/user/style" "" "" "sk.secret"
      (by decide) (by decide)).1,
   (claim_c7_amended.2.2 "https://example.com/sprite" "@2x" ".png"
      (some "pk.t") (by decide)).2.2.2⟩

/-! ## Claim C9 -/

/-- Claim C9: when the style.json entry exists but its content does not parse
    as JSON, `validate` returns immediately with `valid = false`; the errors
    are exactly the level-2 (version) errors followed by the
    `style.json is not valid JSON` message — so no metadata, tile, glyph or
    sprite check runs — and every earlier error is a version message. -/
theorem claim_c9 (fp : String) (vsm : Json → List String)
    (pj : String → Except String Json) (raw : List RawEntry)
    (vcOpt : Option String) (c m : String)
    (hv : getEntry (buildEntries raw) VERSION_FILE = vcOpt.map Except.ok)
    (hs : getEntry (buildEntries raw) STYLE_FILE = some (Except.ok c))
    (hp : pj c = Except.error m) :
    validate fp vsm pj
      (OpenResult.success raw (Except.ok ()) (Except.ok ())) = Except.ok
      ⟨false, (level2 vcOpt).1 ++ ["style.json is not valid JSON: " ++ m],
       (level2 vcOpt).2⟩ ∧
    (∀ e ∈ (level2 vcOpt).1,
      jsStartsWith e "Invalid version format" = true ∨
      jsStartsWith e "Unsupported major version" = true) := by
  constructor
  · cases vcOpt with
    | none =>
        simp only [Option.map_none'] at hv
        simp only [validate, hv, validateRest, hs, hp]
    | some vc =>
        simp only [Option.map_some'] at hv
        simp only [validate, hv, validateRest, hs, hp]
  · exact level2_err_shape vcOpt

/-- Claim C9 witness: the statement at a concrete archive whose style.json
    content fails to parse. -/
theorem claim_c9_witness :
    validate "f" vsmNil (fun _ => Except.error "bad")
      (OpenResult.success
        [⟨"VERSION", Except.ok "1.0\n"⟩, ⟨"style.json", Except.ok "x"⟩]
        (Except.ok ()) (Except.ok ())) =
      Except.ok ⟨false,
        (level2 (some "1.0\n")).1 ++ ["style.json is not valid JSON: bad"],
        (level2 (some "1.0\n")).2⟩ :=
  (claim_c9 "f" vsmNil (fun _ => Except.error "bad")
    [⟨"VERSION", Except.ok "1.0\n"⟩, ⟨"style.json", Except.ok "x"⟩]
    (some "1.0\n") "x" "bad" rfl rfl rfl).1

/-! ## Claim C3 -/

/-- Claim C3: for a style whose single source carries one internal tiles
    template containing `{z}`, `validate` reports exactly the
    `No tile files found` error for that source when no archive entry filename
    starts with the template path before `{z}`, and reports nothing (and is
    valid) when some entry matches; the error is emitted iff no entry
    matches. -/
theorem claim_c3 (fp sc : String) (vsm : Json → List String)
    (pj : String → Except String Json) (raw : List RawEntry)
    (sourceId tp : String) (k : Nat)
    (hv : getEntry (buildEntries raw) VERSION_FILE = some (Except.ok "1.0\n"))
    (hs : getEntry (buildEntries raw) STYLE_FILE = some (Except.ok sc))
    (hp : pj sc = Except.ok (mkTileStyle sourceId tp))
    (hvsm : vsm (mkTileStyle sourceId tp) = [])
    (hk : indexOfSub tp.data "{z}".data = some k) :
    validate fp vsm pj
      (OpenResult.success raw (Except.ok ()) (Except.ok ())) = Except.ok
      ⟨hasTileEntries (buildEntries raw) ⟨tp.data.take k⟩,
       if hasTileEntries (buildEntries raw) ⟨tp.data.take k⟩ then []
       else [tileMsg sourceId ⟨tp.data.take k⟩],
       []⟩ ∧
    (tileMsg sourceId ⟨tp.data.take k⟩ ∈
        (if hasTileEntries (buildEntries raw) ⟨tp.data.take k⟩
         then ([] : List String)
         else [tileMsg sourceId ⟨tp.data.take k⟩]) ↔
      hasTileEntries (buildEntries raw) ⟨tp.data.take k⟩ = false) := by
  have hstruct := validate_structure fp vsm pj raw (some "1.0\n") sc
    (mkTileStyle sourceId tp) _ _ _ hv hs hp
    (level5_mkTileStyle sourceId tp)
    (level6_mkTileStyle (buildEntries raw) sourceId tp k hk)
    (level8_mkTileStyle (buildEntries raw) sourceId tp)
  simp only [level2_v10, hvsm, level7_mkTileStyle,
    List.map_nil, List.nil_append, List.append_nil] at hstruct
  constructor
  · have hemp : (if hasTileEntries (buildEntries raw) ⟨tp.data.take k⟩
        then ([] : List String)
        else [tileMsg sourceId ⟨tp.data.take k⟩]).isEmpty =
        hasTileEntries (buildEntries raw) ⟨tp.data.take k⟩ := by
      by_cases ht : hasTileEntries (buildEntries raw) ⟨tp.data.take k⟩ <;>
        simp [ht]
    rw [hemp] at hstruct
    exact hstruct
  · by_cases ht : hasTileEntries (buildEntries raw) ⟨tp.data.take k⟩ <;>
      simp [ht]

/-- Claim C3 witness: the statement at a concrete archive with no tile files
    for the source `test` (template `s/0/{z}/{x}/{y}.mvt.gz`, prefix `s/0/`). -/
theorem claim_c3_witness :
    validate "f" vsmNil
      (fun _ => Except.ok (mkTileStyle "test" "s/0/{z}/{x}/{y}.mvt.gz"))
      (OpenResult.success
        [⟨"VERSION", Except.ok "1.0\n"⟩, ⟨"style.json", Except.ok "{}"⟩]
        (Except.ok ()) (Except.ok ())) =
      Except.ok
        ⟨hasTileEntries
          (buildEntries
            [⟨"VERSION", Except.ok "1.0\n"⟩, ⟨"style.json", Except.ok "{}"⟩])
          ⟨("s/0/{z}/{x}/{y}.mvt.gz" : String).data.take 4⟩,
         if hasTileEntries
             (buildEntries
               [⟨"VERSION", Except.ok "1.0\n"⟩,
                ⟨"style.json", Except.ok "{}"⟩])
             ⟨("s/0/{z}/{x}/{y}.mvt.gz" : String).data.take 4⟩ then []
         else [tileMsg "test" ⟨("s/0/{z}/{x}/{y}.mvt.gz" : String).data.take 4⟩],
         []⟩ :=
  (claim_c3 "f" "{}" vsmNil
    (fun _ => Except.ok (mkTileStyle "test" "s/0/{z}/{x}/{y}.mvt.gz"))
    [⟨"VERSION", Except.ok "1.0\n"⟩, ⟨"style.json", Except.ok "{}"⟩]
    "test" "s/0/{z}/{x}/{y}.mvt.gz" 4 rfl rfl rfl rfl (by decide)).1

/-! ## Claim C4 -/

theorem level5_mkSpriteStyle (base : String) :
    level5 (mkSpriteStyle base) = Except.ok ([], []) := rfl

theorem level6_mkSpriteStyle (E : List (String × Except String String))
    (base : String) : level6 E (mkSpriteStyle base) = Except.ok [] := rfl

theorem level7_mkSpriteStyle (E : List (String × Except String String))
    (base : String) : level7 E (mkSpriteStyle base) = [] := rfl

theorem level8_mkSpriteStyle (E : List (String × Except String String))
    (base : String) :
    level8 E (mkSpriteStyle base) = Except.ok (validateSpriteFiles E base) := by
  simp only [level8, mkSpriteStyle, getProp, List.find?,
    show ("metadata" == "sprite") = false from rfl,
    show ("sprite" == "sprite") = true from rfl,
    Option.map, jsStartsWith_self_append, data_drop_append, if_true,
    strMk_data]

theorem level5_mkSpriteArrayStyle (bases : List String) :
    level5 (mkSpriteArrayStyle bases) = Except.ok ([], []) := rfl

theorem level6_mkSpriteArrayStyle (E : List (String × Except String String))
    (bases : List String) :
    level6 E (mkSpriteArrayStyle bases) = Except.ok [] := rfl

theorem level7_mkSpriteArrayStyle (E : List (String × Except String String))
    (bases : List String) : level7 E (mkSpriteArrayStyle bases) = [] := rfl

/-- The sprite-array loop on entries `{id, url}` with internal urls
    accumulates the per-base sprite-file errors and warnings in order. -/
theorem spriteArrayFold_acc (E : List (String × Except String String)) :
    ∀ (bases : List String) (acc : List String × List String),
    spriteArrayFold E (bases.map (fun b => Json.obj
      [("id", Json.str b), ("url", Json.str (URI_BASE ++ b))])) acc =
    Except.ok
      (acc.1 ++ (bases.map (fun b => (validateSpriteFiles E b).1)).flatten,
       acc.2 ++ (bases.map (fun b => (validateSpriteFiles E b).2)).flatten) := by
  intro bases
  induction bases with
  | nil =>
      intro acc
      simp [spriteArrayFold]
  | cons b rest ih =>
      intro acc
      simp only [List.map_cons, spriteArrayFold, getProp, List.find?,
        show ("id" == "url") = false from rfl,
        show ("url" == "url") = true from rfl, Option.map,
        jsStartsWith_self_append, data_drop_append, if_true, strMk_data,
        ih, List.flatten_cons]
      simp [List.append_assoc]

theorem level8_mkSpriteArrayStyle (E : List (String × Except String String))
    (bases : List String) :
    level8 E (mkSpriteArrayStyle bases) = Except.ok
      ((bases.map (fun b => (validateSpriteFiles E b).1)).flatten,
       (bases.map (fun b => (validateSpriteFiles E b).2)).flatten) := by
  simp only [level8, mkSpriteArrayStyle, getProp, List.find?,
    show ("metadata" == "sprite") = false from rfl,
    show ("sprite" == "sprite") = true from rfl, Option.map]
  simpa using spriteArrayFold_acc E bases ([], [])

/-- Claim C4: (string form) for a style whose `sprite` is an internal URI
    with base path `base`: a missing `base.json` or `base.png` entry each
    yields a `Missing sprite file` error; when both 1x files are present but
    the `@2x` pair is incomplete, the result is exactly `valid = true` with
    the single `@2x` warning, whose message mentions `@2x`.  (array form)
    for a style whose `sprite` is an array of `{id, url}` entries with
    internal urls, every base path with a missing `.json` or `.png` entry
    contributes its `Missing sprite file` error, and every base path with an
    incomplete `@2x` pair contributes its `@2x` warning. -/
theorem claim_c4 :
    (∀ (fp sc base : String) (vsm : Json → List String)
       (pj : String → Except String Json) (raw : List RawEntry)
       (r : ValidationResult),
       getEntry (buildEntries raw) VERSION_FILE = some (Except.ok "1.0\n") →
       getEntry (buildEntries raw) STYLE_FILE = some (Except.ok sc) →
       pj sc = Except.ok (mkSpriteStyle base) →
       vsm (mkSpriteStyle base) = [] →
       validate fp vsm pj
         (OpenResult.success raw (Except.ok ()) (Except.ok ())) =
         Except.ok r →
       (hasEntry (buildEntries raw) (base ++ ".json") = false →
         spriteMissingMsg (base ++ ".json") ∈ r.errors) ∧
       (hasEntry (buildEntries raw) (base ++ ".png") = false →
         spriteMissingMsg (base ++ ".png") ∈ r.errors) ∧
       (hasEntry (buildEntries raw) (base ++ ".json") = true →
        hasEntry (buildEntries raw) (base ++ ".png") = true →
        (hasEntry (buildEntries raw) (base ++ "@2x.json") &&
         hasEntry (buildEntries raw) (base ++ "@2x.png")) = false →
         r = ⟨true, [], [sprite2xMsg base]⟩) ∧
       (∃ l t, (sprite2xMsg base).data = l ++ "@2x".data ++ t)) ∧
    (∀ (fp sc : String) (bases : List String) (vsm : Json → List String)
       (pj : String → Except String Json) (raw : List RawEntry)
       (r : ValidationResult),
       getEntry (buildEntries raw) VERSION_FILE = some (Except.ok "1.0\n") →
       getEntry (buildEntries raw) STYLE_FILE = some (Except.ok sc) →
       pj sc = Except.ok (mkSpriteArrayStyle bases) →
       vsm (mkSpriteArrayStyle bases) = [] →
       validate fp vsm pj
         (OpenResult.success raw (Except.ok ()) (Except.ok ())) =
         Except.ok r →
       ∀ b ∈ bases,
         (hasEntry (buildEntries raw) (b ++ ".json") = false →
           spriteMissingMsg (b ++ ".json") ∈ r.errors) ∧
         (hasEntry (buildEntries raw) (b ++ ".png") = false →
           spriteMissingMsg (b ++ ".png") ∈ r.errors) ∧
         ((hasEntry (buildEntries raw) (b ++ "@2x.json") &&
           hasEntry (buildEntries raw) (b ++ "@2x.png")) = false →
           sprite2xMsg b ∈ r.warnings)) := by
  constructor
  · intro fp sc base vsm pj raw r hv hs hp hvsm hr
    have hstruct := validate_structure fp vsm pj raw (some "1.0\n") sc
      (mkSpriteStyle base) _ _ _ hv hs hp
      (level5_mkSpriteStyle base)
      (level6_mkSpriteStyle (buildEntries raw) base)
      (level8_mkSpriteStyle (buildEntries raw) base)
    simp only [level2_v10, hvsm, level7_mkSpriteStyle, List.map_nil,
      List.nil_append, List.append_nil] at hstruct
    rw [hstruct] at hr
    simp only [Except.ok.injEq] at hr
    subst hr
    refine ⟨?_, ?_, ?_, ?_⟩
    · intro h
      simp [validateSpriteFiles, h]
    · intro h
      simp [validateSpriteFiles, h]
    · intro h1 h2 h3
      simp [validateSpriteFiles, h1, h2, h3]
    · refine ⟨"Missing ".data,
        " sprite for \"".data ++ base.data ++
          "\" (recommended but not required)".data, ?_⟩
      simp only [sprite2xMsg, String.data_append, List.append_assoc]
      rfl
  · intro fp sc bases vsm pj raw r hv hs hp hvsm hr
    have hstruct := validate_structure fp vsm pj raw (some "1.0\n") sc
      (mkSpriteArrayStyle bases) _ _ _ hv hs hp
      (level5_mkSpriteArrayStyle bases)
      (level6_mkSpriteArrayStyle (buildEntries raw) bases)
      (level8_mkSpriteArrayStyle (buildEntries raw) bases)
    simp only [level2_v10, hvsm, level7_mkSpriteArrayStyle, List.map_nil,
      List.nil_append, List.append_nil] at hstruct
    rw [hstruct] at hr
    simp only [Except.ok.injEq] at hr
    subst hr
    intro b hb
    refine ⟨?_, ?_, ?_⟩
    · intro h
      refine List.mem_flatten.mpr ⟨(validateSpriteFiles (buildEntries raw) b).1,
        List.mem_map.mpr ⟨b, hb, rfl⟩, ?_⟩
      simp [validateSpriteFiles, h]
    · intro h
      refine List.mem_flatten.mpr ⟨(validateSpriteFiles (buildEntries raw) b).1,
        List.mem_map.mpr ⟨b, hb, rfl⟩, ?_⟩
      simp [validateSpriteFiles, h]
    · intro h
      refine List.mem_flatten.mpr ⟨(validateSpriteFiles (buildEntries raw) b).2,
        List.mem_map.mpr ⟨b, hb, rfl⟩, ?_⟩
      simp [validateSpriteFiles, h]

/-- Claim C4 witness: the string form at a concrete archive missing the 1x
    sprite files for the internal sprite `sprites/default/sprite`, and the
    array form at the two-sprite archive where only `default` has its files
    (the `signs` files are missing). -/
theorem claim_c4_witness :
    (spriteMissingMsg ("sprites/default/sprite" ++ ".json") ∈
      (⟨false,
        [spriteMissingMsg ("sprites/default/sprite" ++ ".json"),
         spriteMissingMsg ("sprites/default/sprite" ++ ".png")],
        [sprite2xMsg "sprites/default/sprite"]⟩ :
        ValidationResult).errors) ∧
    (spriteMissingMsg ("sprites/signs/sprite" ++ ".json") ∈
      (⟨false,
        [spriteMissingMsg ("sprites/signs/sprite" ++ ".json"),
         spriteMissingMsg ("sprites/signs/sprite" ++ ".png")],
        [sprite2xMsg "sprites/default/sprite",
         sprite2xMsg "sprites/signs/sprite"]⟩ :
        ValidationResult).errors) := by
  constructor
  · exact (claim_c4.1 "f" "{}" "sprites/default/sprite" vsmNil
      (fun _ => Except.ok (mkSpriteStyle "sprites/default/sprite"))
      [⟨"VERSION", Except.ok "1.0\n"⟩, ⟨"style.json", Except.ok "{}"⟩]
      ⟨false,
        [spriteMissingMsg ("sprites/default/sprite" ++ ".json"),
         spriteMissingMsg ("sprites/default/sprite" ++ ".png")],
        [sprite2xMsg "sprites/default/sprite"]⟩
      rfl rfl rfl rfl rfl).1 rfl
  · exact (claim_c4.2 "f" "{}"
      ["sprites/default/sprite", "sprites/signs/sprite"] vsmNil
      (fun _ => Except.ok (mkSpriteArrayStyle
        ["sprites/default/sprite", "sprites/signs/sprite"]))
      [⟨"VERSION", Except.ok "1.0\n"⟩, ⟨"style.json", Except.ok "{}"⟩,
       ⟨"sprites/default/sprite.json", Except.ok "{}"⟩,
       ⟨"sprites/default/sprite.png", Except.ok "p"⟩]
      ⟨false,
        [spriteMissingMsg ("sprites/signs/sprite" ++ ".json"),
         spriteMissingMsg ("sprites/signs/sprite" ++ ".png")],
        [sprite2xMsg "sprites/default/sprite",
         sprite2xMsg "sprites/signs/sprite"]⟩
      rfl rfl rfl rfl rfl "sprites/signs/sprite"
      (List.Mem.tail _ (List.Mem.head _))).1 rfl

/-! ## Claim C10 -/

/-- Claim C10: the VERSION grammar check is applied to the trimmed content:
    whenever the trimmed content is a `MAJOR.MINOR` digit string, the version
    parses (no `Invalid version format` error is possible, only an
    unsupported-major error), and concrete archives whose VERSION content has
    a CRLF ending, no trailing newline, or surrounding blank lines validate
    with no errors — the exact `MAJOR.MINOR\n` form is not enforced. -/
theorem claim_c10 :
    (∀ (c : String) (a b : List Char), a ≠ [] → b ≠ [] →
       a.all Char.isDigit = true → b.all Char.isDigit = true →
       (jsTrim c).data = a ++ '.' :: b →
       versionMajorDigits (jsTrim c).data = some a ∧
       (level2 (some c)).1 =
         (if digitsToNat a = 1 then []
          else ["Unsupported major version: " ++ toString (digitsToNat a) ++
                " (supported: 1)"]) ∧
       ("Invalid version format: \"" ++ jsTrim c ++
        "\" (expected MAJOR.MINOR)") ∉ (level2 (some c)).1) ∧
    (validate "f" vsmNil pjGood
       (OpenResult.success
         [⟨"VERSION", Except.ok "1.1\r\n"⟩, ⟨"style.json", Except.ok "s"⟩]
         (Except.ok ()) (Except.ok ())) =
       Except.ok ⟨true, [], []⟩) ∧
    (validate "f" vsmNil pjGood
       (OpenResult.success
         [⟨"VERSION", Except.ok "1.0"⟩, ⟨"style.json", Except.ok "s"⟩]
         (Except.ok ()) (Except.ok ())) =
       Except.ok ⟨true, [], []⟩) ∧
    (validate "f" vsmNil pjGood
       (OpenResult.success
         [⟨"VERSION", Except.ok "\n\n 1.0 \n\n"⟩,
          ⟨"style.json", Except.ok "s"⟩]
         (Except.ok ()) (Except.ok ())) =
       Except.ok ⟨true, [], []⟩) := by
  refine ⟨?_, rfl, rfl, rfl⟩
  intro c a b ha hb hda hdb h
  have hm : versionMajorDigits (jsTrim c).data = some a := by
    rw [h]
    exact versionMajorDigits_eq a b ha hb hda hdb
  have hl2 := level2_parsed c a b ha hb hda hdb h
  refine ⟨hm, ?_, ?_⟩
  · rw [hl2]
    by_cases h1 : digitsToNat a = 1 <;> simp [h1]
  · rw [hl2]
    by_cases h1 : digitsToNat a = 1
    · simp [h1]
    · simp only [h1, if_false, List.mem_singleton]
      exact invalid_ne_unsupported (jsTrim c) (toString (digitsToNat a))

/-- Claim C10 witness: the quantified part instantiated at VERSION content
    `1.1\r\n` (CRLF line ending). -/
theorem claim_c10_witness :
    versionMajorDigits (jsTrim "1.1\r\n").data = some ['1'] :=
  (claim_c10.1 "1.1\r\n" ['1'] ['1'] (by decide) (by decide) (by decide)
    (by decide) (by decide)).1

/-! ## Claim C8 -/

theorem digitChar_ne_brace (n : Nat) : digitChar n ≠ '{' := by
  unfold digitChar
  split_ifs <;> decide

theorem natDigitsAux_no_brace :
    ∀ (fuel n : Nat), ∀ c ∈ natDigitsAux fuel n, c ≠ '{' := by
  intro fuel
  induction fuel with
  | zero =>
      intro n c hc
      simp [natDigitsAux] at hc
  | succ f ih =>
      intro n c hc
      simp only [natDigitsAux] at hc
      split at hc
      · simp only [List.mem_singleton] at hc
        subst hc
        exact digitChar_ne_brace n
      · rcases List.mem_append.mp hc with h | h
        · exact ih _ _ h
        · simp only [List.mem_singleton] at h
          subst h
          exact digitChar_ne_brace _

theorem natRepr_no_brace (n : Nat) : ∀ c ∈ (natRepr n).data, c ≠ '{' :=
  natDigitsAux_no_brace (n + 1) n

/-- Scanning a region whose characters all differ from the head of the
    pattern leaves it unchanged and spends exactly its length of fuel. -/
theorem replaceSub_skip (p : Char) (ps rep : List Char) :
    ∀ (pre rest : List Char) (fuel : Nat), (∀ c ∈ pre, c ≠ p) →
      replaceSub (pre.length + fuel) (pre ++ rest) (p :: ps) rep =
        pre ++ replaceSub fuel rest (p :: ps) rep := by
  intro pre
  induction pre with
  | nil =>
      intro rest fuel _
      simp
  | cons c cs ih =>
      intro rest fuel h
      have hc : (p == c) = false := by
        rw [beq_eq_false_iff_ne]
        exact fun hh => h c (by simp) hh.symm
      rw [List.length_cons, List.cons_append,
        show cs.length + 1 + fuel = (cs.length + fuel) + 1 by omega]
      simp only [replaceSub, List.isPrefixOf, hc, Bool.false_and,
        Bool.and_false, if_false, Bool.false_eq_true, ite_false]
      rw [ih rest fuel (fun x hx => h x (by simp [hx]))]
      rfl

theorem no_brace_concat (u : List Char) (v : String)
    (hu : ∀ c ∈ u, c ≠ '{') (hv : ∀ c ∈ v.data, c ≠ '{') :
    ∀ c ∈ u ++ v.data, c ≠ '{' := by
  intro c hc
  rcases List.mem_append.mp hc with h | h
  · exact hu c h
  · exact hv c h

/-- One substituted-template step: replace `pat` in `pre ++ rest` where `pre`
    contains no `{` and the scan of `rest` is concrete. -/
theorem jsReplaceAll_split (s : String) (pre : List Char) (rest : String)
    (ps rep : String) (p : Char) (pt : List Char)
    (hdata : s.data = pre ++ rest.data)
    (hpat : ps.data = p :: pt) (hp : p = '{')
    (hpre : ∀ c ∈ pre, c ≠ '{') :
    jsReplaceAll s ps rep =
      ⟨pre ++ replaceSub rest.data.length rest.data ps.data rep.data⟩ := by
  unfold jsReplaceAll
  rw [hdata, show (pre ++ rest.data).length = pre.length + rest.data.length
    from by simp, hpat, replaceSub_skip p pt rep.data pre rest.data
      rest.data.length (by rw [hp] at *; exact hpre)]

/-- Full placeholder substitution on the canonical tile template, for
    replacement strings free of `{`. -/
theorem substTemplate_zxy (rz rx ry qk pfx : String)
    (hz : ∀ c ∈ rz.data, c ≠ '{') (hx : ∀ c ∈ rx.data, c ≠ '{')
    (hy : ∀ c ∈ ry.data, c ≠ '{') :
    jsReplaceAll (jsReplaceAll (jsReplaceAll (jsReplaceAll (jsReplaceAll
      "https://t/{z}/{x}/{y}.mvt" "{z}" rz) "{x}" rx) "{y}" ry)
      "{quadkey}" qk) "\x7bprefix\x7d" pfx =
    "https://t/" ++ rz ++ "/" ++ rx ++ "/" ++ ry ++ ".mvt" := by
  have hpre0 : ∀ c ∈ ("https://t/" : String).data, c ≠ '{' := by decide
  have s1 : jsReplaceAll "https://t/{z}/{x}/{y}.mvt" "{z}" rz =
      "https://t/" ++ rz ++ "/{x}/{y}.mvt" := rfl
  have s2 : jsReplaceAll ("https://t/" ++ rz ++ "/{x}/{y}.mvt") "{x}" rx =
      "https://t/" ++ rz ++ "/" ++ rx ++ "/{y}.mvt" := by
    rw [jsReplaceAll_split _ ("https://t/".data ++ rz.data) "/{x}/{y}.mvt"
      "{x}" rx '{' ['x', '}']
      (by rw [String.data_append, String.data_append])
      rfl rfl (no_brace_concat _ _ hpre0 hz)]
    rw [show replaceSub ("/{x}/{y}.mvt" : String).data.length
      ("/{x}/{y}.mvt" : String).data ("{x}" : String).data rx.data =
      '/' :: (rx.data ++ ("/{y}.mvt" : String).data) from rfl]
    refine (congrArg String.mk ?_).trans (strMk_data _)
    simp [String.data_append]
  have s3 : jsReplaceAll ("https://t/" ++ rz ++ "/" ++ rx ++ "/{y}.mvt")
      "{y}" ry = "https://t/" ++ rz ++ "/" ++ rx ++ "/" ++ ry ++ ".mvt" := by
    rw [jsReplaceAll_split _
      ((("https://t/".data ++ rz.data) ++ ['/']) ++ rx.data) "/{y}.mvt"
      "{y}" ry '{' ['y', '}']
      (by simp [String.data_append])
      rfl rfl ?_]
    · rw [show replaceSub ("/{y}.mvt" : String).data.length
        ("/{y}.mvt" : String).data ("{y}" : String).data ry.data =
        '/' :: (ry.data ++ (".mvt" : String).data) from rfl]
      refine (congrArg String.mk ?_).trans (strMk_data _)
      simp [String.data_append]
    · refine no_brace_concat _ _ ?_ hx
      refine no_brace_concat _ ("/" : String) ?_ (by decide)
      exact no_brace_concat _ _ hpre0 hz
  have s4 : jsReplaceAll
      ("https://t/" ++ rz ++ "/" ++ rx ++ "/" ++ ry ++ ".mvt")
      "{quadkey}" qk =
      "https://t/" ++ rz ++ "/" ++ rx ++ "/" ++ ry ++ ".mvt" := by
    rw [jsReplaceAll_split _
      ((((("https://t/".data ++ rz.data) ++ ['/']) ++ rx.data) ++ ['/']) ++
        ry.data) ".mvt" "{quadkey}" qk '{'
      ['q', 'u', 'a', 'd', 'k', 'e', 'y', '}']
      (by simp [String.data_append])
      rfl rfl ?_]
    · rw [show replaceSub (".mvt" : String).data.length
        (".mvt" : String).data ("{quadkey}" : String).data qk.data =
        (".mvt" : String).data from rfl]
      refine (congrArg String.mk ?_).trans (strMk_data _)
      simp [String.data_append]
    · refine no_brace_concat _ _ ?_ hy
      refine no_brace_concat _ ("/" : String) ?_ (by decide)
      refine no_brace_concat _ _ ?_ hx
      refine no_brace_concat _ ("/" : String) ?_ (by decide)
      exact no_brace_concat _ _ hpre0 hz
  have s5 : jsReplaceAll
      ("https://t/" ++ rz ++ "/" ++ rx ++ "/" ++ ry ++ ".mvt")
      "\x7bprefix\x7d" pfx =
      "https://t/" ++ rz ++ "/" ++ rx ++ "/" ++ ry ++ ".mvt" := by
    rw [jsReplaceAll_split _
      ((((("https://t/".data ++ rz.data) ++ ['/']) ++ rx.data) ++ ['/']) ++
        ry.data) ".mvt" "\x7bprefix\x7d" pfx '{'
      ['p', 'r', 'e', 'f', 'i', 'x', '}']
      (by simp [String.data_append])
      rfl rfl ?_]
    · rw [show replaceSub (".mvt" : String).data.length
        (".mvt" : String).data ("\x7bprefix\x7d" : String).data pfx.data =
        (".mvt" : String).data from rfl]
      refine (congrArg String.mk ?_).trans (strMk_data _)
      simp [String.data_append]
    · refine no_brace_concat _ _ ?_ hy
      refine no_brace_concat _ ("/" : String) ?_ (by decide)
      refine no_brace_concat _ _ ?_ hx
      refine no_brace_concat _ ("/" : String) ?_ (by decide)
      exact no_brace_concat _ _ hpre0 hz
  rw [s1, s2, s3, s4, s5]

/-- Claim C8: `getTileUrl` selects `templates[(x+y) mod templates.length]`;
    on the canonical `{z}/{x}/{y}` template it substitutes the coordinate
    values, with `y` replaced by `2^z - y - 1` under the `tms` scheme and by
    `y` under `xyz`; in particular rendering `(x=0, y=0, z=1, tms)` yields
    `https://t/1/0/1.mvt`, and a two-template list balances by
    `(x+y) mod 2`. -/
theorem claim_c8 :
    (∀ (ts : List String) (coord : TileCoord), ts ≠ [] →
       getTileUrl ts coord =
         getTileUrl [ts.getD ((coord.x + coord.y) % ts.length) ""] coord) ∧
    (∀ z x y : Nat,
       getTileUrl ["https://t/{z}/{x}/{y}.mvt"] ⟨z, x, y, Scheme.tms⟩ =
         "https://t/" ++ natRepr z ++ "/" ++ natRepr x ++ "/" ++
           natRepr (2 ^ z - y - 1) ++ ".mvt") ∧
    (∀ z x y : Nat,
       getTileUrl ["https://t/{z}/{x}/{y}.mvt"] ⟨z, x, y, Scheme.xyz⟩ =
         "https://t/" ++ natRepr z ++ "/" ++ natRepr x ++ "/" ++
           natRepr y ++ ".mvt") ∧
    (getTileUrl ["https://t/{z}/{x}/{y}.mvt"] ⟨1, 0, 0, Scheme.tms⟩ =
       "https://t/1/0/1.mvt") ∧
    (getTileUrl ["https://tiles/{z}/{x}/{y}.mvt"] ⟨3, 1, 2, Scheme.xyz⟩ =
       "https://tiles/3/1/2.mvt") ∧
    (getTileUrl ["https://a/{z}/{x}/{y}", "https://b/{z}/{x}/{y}"]
       ⟨0, 0, 0, Scheme.xyz⟩ = "https://a/0/0/0" ∧
     getTileUrl ["https://a/{z}/{x}/{y}", "https://b/{z}/{x}/{y}"]
       ⟨0, 1, 0, Scheme.xyz⟩ = "https://b/0/1/0") := by
  refine ⟨?_, ?_, ?_, by decide, by decide, by decide, by decide⟩
  · intro ts coord hts
    simp [getTileUrl, Nat.mod_one]
  · intro z x y
    simp only [getTileUrl, List.length_cons, List.length_nil, Nat.zero_add,
      Nat.mod_one, List.getD_cons_zero]
    exact substTemplate_zxy _ _ _ _ _ (natRepr_no_brace z)
      (natRepr_no_brace x) (natRepr_no_brace (2 ^ z - y - 1))
  · intro z x y
    simp only [getTileUrl, List.length_cons, List.length_nil, Nat.zero_add,
      Nat.mod_one, List.getD_cons_zero]
    exact substTemplate_zxy _ _ _ _ _ (natRepr_no_brace z)
      (natRepr_no_brace x) (natRepr_no_brace y)

/-- Claim C8 witness: the quantified parts instantiated at concrete
    templates and coordinates. -/
theorem claim_c8_witness :
    (getTileUrl ["https://a/{z}/{x}/{y}", "https://b/{z}/{x}/{y}"]
       ⟨0, 1, 0, Scheme.xyz⟩ =
      getTileUrl
        [(["https://a/{z}/{x}/{y}", "https://b/{z}/{x}/{y}"] :
          List String).getD ((1 + 0) % 2) ""] ⟨0, 1, 0, Scheme.xyz⟩) ∧
    (getTileUrl ["https://t/{z}/{x}/{y}.mvt"] ⟨1, 0, 0, Scheme.tms⟩ =
      "https://t/" ++ natRepr 1 ++ "/" ++ natRepr 0 ++ "/" ++
        natRepr (2 ^ 1 - 0 - 1) ++ ".mvt") :=
  ⟨claim_c8.1 ["https://a/{z}/{x}/{y}", "https://b/{z}/{x}/{y}"]
     ⟨0, 1, 0, Scheme.xyz⟩ (by decide),
   claim_c8.2.1 1 0 0⟩

end StyledMap
